import Mathlib

/-!
Verification development for the "On This Day in Music" web application
(`app.py`).  The POST branch of the `index` handler is shallowly embedded
as the pure function `postIndex` over an oracle modelling the external
MusicBrainz search call.  Python strings are modelled as Lean `String`
(both compare lexicographically by code point), Python ints as `Int`,
and the strict `%Y-%m-%d` parse of `datetime.strptime` as `parseDate`
(restricted to ASCII digits).
-/

namespace MusicApp

/-- Maximum number of years processed in a single request (`MAX_YEARS_PER_REQUEST`). -/
def MAX_YEARS_PER_REQUEST : Int := 25

/-- Base of the deep link built from a release identifier. -/
def urlBase : String := "https://musicbrainz.org/release/"

/-- Numeric value of a list of ASCII digit characters. -/
def digitsToNat (cs : List Char) : Nat :=
  cs.foldl (fun a c => 10 * a + (c.toNat - 48)) 0

/-- Model of Python `int(s)` on stripped ASCII input: an optional sign
followed by one or more ASCII digits.  (Python also accepts underscores and
non-ASCII digits; those inputs are out of the model.) -/
def pyInt (s : String) : Option Int :=
  match s.data with
  | [] => none
  | '-' :: rest =>
      if rest ≠ [] ∧ rest.all (fun c => c.isDigit) then
        some (-(digitsToNat rest : Int))
      else none
  | '+' :: rest =>
      if rest ≠ [] ∧ rest.all (fun c => c.isDigit) then
        some ((digitsToNat rest : Int))
      else none
  | cs =>
      if cs.all (fun c => c.isDigit) then some ((digitsToNat cs : Int)) else none

/-- Days in a month of the proleptic Gregorian calendar, as validated by
`datetime`. -/
def daysInMonth (y m : Nat) : Nat :=
  if m = 2 then
    (if (y % 4 = 0 ∧ y % 100 ≠ 0) ∨ y % 400 = 0 then 29 else 28)
  else if m = 4 ∨ m = 6 ∨ m = 9 ∨ m = 11 then 30 else 31

/-- Model of `datetime.strptime(s, "%Y-%m-%d")` on ASCII input: exactly four
digits of year, a dash, one or two digits of month in 1..12, a dash, one or
two digits of day valid for that month and year, nothing left over, and the
year at least `datetime.MINYEAR = 1`. -/
def parseDate (s : String) : Option (Nat × Nat × Nat) :=
  match s.data with
  | c1 :: c2 :: c3 :: c4 :: c5 :: rest =>
      if c1.isDigit ∧ c2.isDigit ∧ c3.isDigit ∧ c4.isDigit ∧ c5 = '-' then
        let y := digitsToNat [c1, c2, c3, c4]
        match (rest.span (fun c => c.isDigit)).1, (rest.span (fun c => c.isDigit)).2 with
        | mcs, '-' :: rest3 =>
            match (rest3.span (fun c => c.isDigit)).1, (rest3.span (fun c => c.isDigit)).2 with
            | dcs, [] =>
                if 1 ≤ mcs.length ∧ mcs.length ≤ 2 ∧ 1 ≤ dcs.length ∧ dcs.length ≤ 2 then
                  let m := digitsToNat mcs
                  let d := digitsToNat dcs
                  if 1 ≤ y ∧ 1 ≤ m ∧ m ≤ 12 ∧ 1 ≤ d ∧ d ≤ daysInMonth y m then
                    some (y, m, d)
                  else none
                else none
            | _, _ => none
        | _, _ => none
      else none
  | _ => none

/-- Full English month name, as produced by `strftime("%B")` in the C locale. -/
def monthName : Nat → String
  | 1 => "January"
  | 2 => "February"
  | 3 => "March"
  | 4 => "April"
  | 5 => "May"
  | 6 => "June"
  | 7 => "July"
  | 8 => "August"
  | 9 => "September"
  | 10 => "October"
  | 11 => "November"
  | 12 => "December"
  | _ => ""

/-- Zero-padded two-digit rendering of a day number, as in `strftime("%d")`. -/
def pad2 (n : Nat) : String :=
  if n < 10 then "0" ++ toString n else toString n

/-- Date-parsing block of `index` (lines 197-203): on success produce the
month-day key `date_value[5:]` and the pretty date `strftime("%B %d")`; on
failure produce the invalid-date error and no key. -/
def resolveDate (date_value : String) : Option String × String × Option String :=
  match parseDate date_value with
  | some (_, m, d) =>
      (some (date_value.drop 5), monthName m ++ " " ++ pad2 d, none)
  | none => (none, "", some "Invalid date. Please use the date picker.")

/-- Error accumulation `(error + " | " if error else "") + msg`. -/
def appendErr : Option String → String → String
  | some prev, msg => prev ++ " | " ++ msg
  | none, msg => msg

/-- Year-parsing block of `index` (lines 205-214): blank fields default to
1990 and the current year, a successful parse with `end < start` is swapped,
and any parse failure resets both years to the defaults and appends the
year error to the running error. -/
def resolveYears (cur : Int) (start_str end_str : String) (err : Option String) :
    Int × Int × Option String :=
  match (if start_str.isEmpty then some (1990 : Int) else pyInt start_str),
        (if end_str.isEmpty then some cur else pyInt end_str) with
  | some s, some e => if e < s then (e, s, err) else (s, e, err)
  | _, _ => (1990, cur, some (appendErr err "Start/end year must be numbers."))

/-- Warning text of the span clamp (lines 224-228). -/
def clampWarning (span s e cur : Int) : String :=
  "Year range too large (" ++ toString span ++ " years). " ++
  "Showing only " ++ toString s ++ "–" ++ toString e ++ ". " ++
  "Try smaller chunks like 1990–2010, then 2011–" ++ toString cur ++ "."

/-- Span-clamping block of `index` (lines 218-228): if the span exceeds
`MAX_YEARS_PER_REQUEST`, lower the end year to `start + max - 1`, cap it at
the current year, and append the clamp warning to the running error. -/
def clampStep (cur s e : Int) (err : Option String) : Int × Option String :=
  if e - s + 1 > MAX_YEARS_PER_REQUEST then
    let e1 := s + MAX_YEARS_PER_REQUEST - 1
    let e2 := if e1 > cur then cur else e1
    (e2, some (appendErr err (clampWarning (e - s + 1) s e2 cur)))
  else (e, err)

/-- One credit object of an `artist-credit` list; `name` is the value of its
`"name"` key when that key is present. -/
structure Credit where
  name : Option String
deriving DecidableEq

/-- Shape of the `artist-credit` value of a raw catalog entry after
`r.get("artist-credit") or []`: `absent` covers a missing key and every
falsy value (collapsed to `[]` by `or []`), `nonList` a truthy non-list
value (rejected by `isinstance(ac, list)`), and `listVal` a non-empty or
empty JSON list of credit objects. -/
inductive ACField where
  | absent
  | nonList
  | listVal (cs : List Credit)
deriving DecidableEq

/-- Raw catalog entry, with the four fields `index` reads from each element
of the `releases` array. -/
structure RawRelease where
  title : Option String
  date : Option String
  artistCredit : ACField
  id : Option String
deriving DecidableEq

/-- Release record as constructed for the template (lines 252-260). -/
structure Release where
  year : Int
  title : Option String
  artist : Option String
  date : Option String
  url : Option String
deriving DecidableEq

/-- Artist extraction (lines 244-247): the first credit's name when the
artist-credit value is a non-empty list, absent otherwise. -/
def extractArtist : ACField → Option String
  | ACField.listVal (c :: _) => c.name
  | _ => none

/-- Deep-link construction (lines 248-249): built only when `mbid` is
truthy, i.e. present and non-empty. -/
def buildUrl : Option String → Option String
  | some s => if s.isEmpty then none else some (urlBase ++ s)
  | none => none

/-- Construction of one release record during loop year `year`
(lines 241-260). -/
def mkRelease (year : Int) (r : RawRelease) : Release :=
  { year := year
    title := r.title
    artist := extractArtist r.artistCredit
    date := r.date
    url := buildUrl r.id }

/-- Outcome of one call to `search_releases_for_date`: a list of raw
releases, a `requests.HTTPError`, or any other exception. -/
inductive FetchResult where
  | ok (releases : List RawRelease)
  | httpError (msg : String)
  | otherError (msg : String)
deriving DecidableEq

/-- Failure banner produced by the loop's two `except` arms for year `y`. -/
def failText (y : Int) : FetchResult → String
  | FetchResult.httpError m => "HTTP error for year " ++ toString y ++ ": " ++ m
  | FetchResult.otherError m => "Error for year " ++ toString y ++ ": " ++ m
  | FetchResult.ok _ => ""

/-- Model of Python `range(s, e + 1)`: the years `s, s+1, ..., e`. -/
def yearRange (s e : Int) : List Int :=
  (List.range (e + 1 - s).toNat).map (fun i => s + Int.ofNat i)

/-- Fetch loop of `index` (lines 230-263): issue one call per year in order;
on success append the extracted records, on failure stop at once with the
corresponding error banner (which is assigned, not appended). -/
def collectYears (fetch : Int → String → FetchResult) (md : String) :
    List Int → List Release × Option String
  | [] => ([], none)
  | y :: ys =>
      match fetch y md with
      | FetchResult.ok rels =>
          ((rels.map (mkRelease y)) ++ (collectYears fetch md ys).1,
           (collectYears fetch md ys).2)
      | FetchResult.httpError msg =>
          ([], some ("HTTP error for year " ++ toString y ++ ": " ++ msg))
      | FetchResult.otherError msg =>
          ([], some ("Error for year " ++ toString y ++ ": " ++ msg))

/-- Sort key `(x.year, x.artist or "", x.title or "")` of line 267. -/
def releaseKey (r : Release) : Int × String × String :=
  (r.year, r.artist.getD "", r.title.getD "")

/-- Lexicographic order on sort keys, exactly Python's tuple comparison with
code-point string comparison. -/
def keyLe (a b : Int × String × String) : Bool :=
  decide (a.1 < b.1 ∨ (a.1 = b.1 ∧
    (a.2.1 < b.2.1 ∨ (a.2.1 = b.2.1 ∧ a.2.2 ≤ b.2.2))))

/-- Comparison used by `results.sort(key=...)`. -/
def releaseLe (a b : Release) : Bool :=
  keyLe (releaseKey a) (releaseKey b)

/-- Stable ascending sort of the collected records (line 267); Python's
`list.sort` is a stable merge sort. -/
def sortReleases (rs : List Release) : List Release :=
  rs.mergeSort releaseLe

/-- Line 266-267: the list is sorted only when non-empty. -/
def sortStep (rs : List Release) : List Release :=
  if rs.isEmpty then rs else sortReleases rs

/-- Clamp, fetch loop and sort (lines 217-267), given that the guard
`not error and mm_dd` held.  Returns the final end year, the final error
(the loop's failure banner replaces the clamp warning when both occur) and
the sorted record list. -/
def runFetchPhase (fetch : Int → String → FetchResult) (md : String)
    (cur s e : Int) (err : Option String) : Int × Option String × List Release :=
  match clampStep cur s e err with
  | (e2, err2) =>
      match collectYears fetch md (yearRange s e2) with
      | (recs, ferr) =>
          (e2, (match ferr with | some msg => some msg | none => err2), sortStep recs)

/-- Template context produced at line 269-278. -/
structure RenderCtx where
  error : Option String
  results : Option (List Release)
  date_value : String
  start_year : Int
  end_year : Int
  pretty_date : String
  current_year : Int
deriving DecidableEq

/-- Model of Python `str.strip()`: drop leading and trailing whitespace. -/
def pyStrip (s : String) : String :=
  String.mk (((s.data.dropWhile Char.isWhitespace).reverse.dropWhile Char.isWhitespace).reverse)

/-- POST branch of the `index` handler (lines 190-278): strip the inputs,
resolve the date and the years, and run the fetch phase exactly when no
validation error was recorded and the month-day key is truthy. -/
def postIndex (cur : Int) (fetch : Int → String → FetchResult)
    (dateStr startStr endStr : String) : RenderCtx :=
  match resolveDate (pyStrip dateStr) with
  | (mmDd, pretty, err1) =>
      match resolveYears cur (pyStrip startStr) (pyStrip endStr) err1 with
      | (sy, ey, err2) =>
          match err2, mmDd with
          | none, some md =>
              if md.isEmpty then
                { error := none, results := none, date_value := (pyStrip dateStr)
                  start_year := sy, end_year := ey, pretty_date := pretty
                  current_year := cur }
              else
                match runFetchPhase fetch md cur sy ey none with
                | (ey2, err3, sorted) =>
                    { error := err3, results := some sorted, date_value := (pyStrip dateStr)
                      start_year := sy, end_year := ey2, pretty_date := pretty
                      current_year := cur }
          | _, _ =>
              { error := err2, results := none, date_value := (pyStrip dateStr)
                start_year := sy, end_year := ey, pretty_date := pretty
                current_year := cur }

/-- Oracle whose every call raises an HTTP error. -/
def fetchBoom : Int → String → FetchResult := fun _ _ => FetchResult.httpError "boom"

/-- Oracle whose every call succeeds with an empty release list. -/
def fetchEmpty : Int → String → FetchResult := fun _ _ => FetchResult.ok []

/-- Sample raw catalog entry for year `y`. -/
def sampleRaw (y : Int) : RawRelease :=
  { title := some ("T" ++ toString y)
    date := some (toString y ++ "-11-22")
    artistCredit := ACField.listVal [{ name := some "Radiohead" }]
    id := some ("id" ++ toString y) }

/-- Oracle of the spec scenario: one record per year, an HTTP error in 2020. -/
def fetchTo2020 : Int → String → FetchResult := fun y _ =>
  if y = 2020 then FetchResult.httpError "503" else FetchResult.ok [sampleRaw y]

/-- Per-year release lists returned by `fetchTo2020` before the failure. -/
def relsTo2020 : Int → List RawRelease := fun y => [sampleRaw y]

/-- Raw entry with every field present and well-formed. -/
def rawSample : RawRelease :=
  { title := some "OK Computer"
    date := some "1997-05-21"
    artistCredit := ACField.listVal [{ name := some "Radiohead" }]
    id := some "abc123" }

end MusicApp

namespace MusicApp

lemma yearRange_nil {s e : Int} (h : e < s) : yearRange s e = [] := by
  unfold yearRange
  have h0 : (e + 1 - s).toNat = 0 := by omega
  simp [h0]

lemma yearRange_cons {s e : Int} (h : s ≤ e) : yearRange s e = s :: yearRange (s + 1) e := by
  unfold yearRange
  have h1 : (e + 1 - s).toNat = (e + 1 - (s + 1)).toNat + 1 := by omega
  rw [h1, List.range_succ_eq_map, List.map_cons, List.map_map]
  congr 1
  · simp
  · apply List.map_congr_left
    intro i _
    simp [Function.comp]
    omega

lemma mem_yearRange {y s e : Int} : y ∈ yearRange s e ↔ s ≤ y ∧ y ≤ e := by
  unfold yearRange
  simp only [List.mem_map, List.mem_range, Int.ofNat_eq_natCast]
  constructor
  · rintro ⟨i, hi, rfl⟩
    omega
  · rintro ⟨h1, h2⟩
    exact ⟨(y - s).toNat, by omega, by omega⟩

lemma collect_fail_aux (fetch : Int → String → FetchResult) (md : String)
    (rels : Int → List RawRelease) (y e : Int)
    (hfail : (∃ m, fetch y md = FetchResult.httpError m) ∨
             (∃ m, fetch y md = FetchResult.otherError m)) :
    ∀ (n : Nat) (s : Int), (y - s).toNat = n → s ≤ y → y ≤ e →
    (∀ y' ∈ yearRange s (y - 1), fetch y' md = FetchResult.ok (rels y')) →
    collectYears fetch md (yearRange s e) =
      ((yearRange s (y - 1)).flatMap (fun y' => (rels y').map (mkRelease y')),
       some (failText y (fetch y md))) := by
  intro n
  induction n with
  | zero =>
      intro s hn hsy hye hok
      have hs : s = y := by omega
      subst hs
      rw [yearRange_cons hye, yearRange_nil (by omega : s - 1 < s)]
      rcases hfail with ⟨m, hf⟩ | ⟨m, hf⟩ <;>
        simp [collectYears, hf, failText]
  | succ n ih =>
      intro s hn hsy hye hok
      have hslt : s < y := by omega
      have hse : s ≤ e := by omega
      have hmem : s ∈ yearRange s (y - 1) := mem_yearRange.mpr ⟨le_refl s, by omega⟩
      have hs : fetch s md = FetchResult.ok (rels s) := hok s hmem
      rw [yearRange_cons hse]
      have ihr := ih (s + 1) (by omega) (by omega) hye
        (fun y' hy' => hok y' (by
          rcases mem_yearRange.mp hy' with ⟨a, b⟩
          exact mem_yearRange.mpr ⟨by omega, b⟩))
      rw [yearRange_cons (show s ≤ y - 1 by omega), List.flatMap_cons]
      simp only [collectYears, hs, ihr]

lemma collect_fail (fetch : Int → String → FetchResult) (md : String)
    (rels : Int → List RawRelease) (s e y : Int)
    (hsy : s ≤ y) (hye : y ≤ e)
    (hok : ∀ y' ∈ yearRange s (y - 1), fetch y' md = FetchResult.ok (rels y'))
    (hfail : (∃ m, fetch y md = FetchResult.httpError m) ∨
             (∃ m, fetch y md = FetchResult.otherError m)) :
    collectYears fetch md (yearRange s e) =
      ((yearRange s (y - 1)).flatMap (fun y' => (rels y').map (mkRelease y')),
       some (failText y (fetch y md))) :=
  collect_fail_aux fetch md rels y e hfail (y - s).toNat s rfl hsy hye hok

lemma postIndex_run (cur : Int) (fetch : Int → String → FetchResult)
    (dStr sStr eStr md p : String) (s e : Int)
    (hd : resolveDate (pyStrip dStr) = (some md, p, none))
    (hmd : md.isEmpty = false)
    (hy : resolveYears cur (pyStrip sStr) (pyStrip eStr) none = (s, e, none)) :
    postIndex cur fetch dStr sStr eStr =
      { error :=
          (match (collectYears fetch md (yearRange s (clampStep cur s e none).1)).2 with
           | some m => some m
           | none => (clampStep cur s e none).2)
        results := some (sortStep (collectYears fetch md (yearRange s (clampStep cur s e none).1)).1)
        date_value := (pyStrip dStr)
        start_year := s
        end_year := (clampStep cur s e none).1
        pretty_date := p
        current_year := cur } := by
  unfold postIndex runFetchPhase
  simp only [hd, hy, hmd]
  rfl

lemma postIndex_noRun (cur : Int) (fetch : Int → String → FetchResult)
    (dStr sStr eStr : String) (mmDd : Option String) (p msg : String)
    (err1 : Option String) (s e : Int)
    (hd : resolveDate (pyStrip dStr) = (mmDd, p, err1))
    (hy : resolveYears cur (pyStrip sStr) (pyStrip eStr) err1 = (s, e, some msg)) :
    postIndex cur fetch dStr sStr eStr =
      { error := some msg, results := none, date_value := (pyStrip dStr)
        start_year := s, end_year := e, pretty_date := p, current_year := cur } := by
  unfold postIndex
  simp only [hd, hy]

lemma postIndex_noDate (cur : Int) (fetch : Int → String → FetchResult)
    (dStr sStr eStr : String) (p : String) (err1 err2 : Option String) (s e : Int)
    (hd : resolveDate (pyStrip dStr) = (none, p, err1))
    (hy : resolveYears cur (pyStrip sStr) (pyStrip eStr) err1 = (s, e, err2)) :
    postIndex cur fetch dStr sStr eStr =
      { error := err2, results := none, date_value := (pyStrip dStr)
        start_year := s, end_year := e, pretty_date := p, current_year := cur } := by
  unfold postIndex
  simp only [hd, hy]

lemma keyLe_refl (a : Int × String × String) : keyLe a a = true := by
  simp [keyLe]

lemma keyLe_trans (a b c : Int × String × String)
    (h1 : keyLe a b = true) (h2 : keyLe b c = true) : keyLe a c = true := by
  simp only [keyLe, decide_eq_true_eq] at h1 h2 ⊢
  rcases h1 with h1 | ⟨e1, h1⟩
  · rcases h2 with h2 | ⟨e2, h2⟩
    · exact Or.inl (lt_trans h1 h2)
    · exact Or.inl (e2 ▸ h1)
  · rcases h2 with h2 | ⟨e2, h2⟩
    · exact Or.inl (e1 ▸ h2)
    · refine Or.inr ⟨e1.trans e2, ?_⟩
      rcases h1 with g1 | ⟨f1, g1⟩
      · rcases h2 with g2 | ⟨f2, g2⟩
        · exact Or.inl (lt_trans g1 g2)
        · exact Or.inl (f2 ▸ g1)
      · rcases h2 with g2 | ⟨f2, g2⟩
        · exact Or.inl (f1 ▸ g2)
        · exact Or.inr ⟨f1.trans f2, le_trans g1 g2⟩

lemma keyLe_total (a b : Int × String × String) : (keyLe a b || keyLe b a) = true := by
  simp only [keyLe, Bool.or_eq_true, decide_eq_true_eq]
  rcases lt_trichotomy a.1 b.1 with h | h | h
  · exact Or.inl (Or.inl h)
  · rcases lt_trichotomy a.2.1 b.2.1 with g | g | g
    · exact Or.inl (Or.inr ⟨h, Or.inl g⟩)
    · rcases le_total a.2.2 b.2.2 with f | f
      · exact Or.inl (Or.inr ⟨h, Or.inr ⟨g, f⟩⟩)
      · exact Or.inr (Or.inr ⟨h.symm, Or.inr ⟨g.symm, f⟩⟩)
    · exact Or.inr (Or.inr ⟨h.symm, Or.inl g⟩)
  · exact Or.inr (Or.inl h)

lemma releaseLe_trans (a b c : Release)
    (h1 : releaseLe a b = true) (h2 : releaseLe b c = true) : releaseLe a c = true :=
  keyLe_trans _ _ _ h1 h2

lemma releaseLe_total (a b : Release) : (releaseLe a b || releaseLe b a) = true :=
  keyLe_total _ _

lemma sortReleases_perm (rs : List Release) : List.Perm (sortReleases rs) rs :=
  List.mergeSort_perm rs releaseLe

lemma sortReleases_sorted (rs : List Release) :
    List.Pairwise (fun a b => releaseLe a b = true) (sortReleases rs) :=
  List.sorted_mergeSort releaseLe_trans releaseLe_total rs

lemma sortReleases_stable (rs : List Release) (k : Int × String × String) :
    (sortReleases rs).filter (fun r => decide (releaseKey r = k)) =
      rs.filter (fun r => decide (releaseKey r = k)) := by
  set p : Release → Bool := fun r => decide (releaseKey r = k) with hp
  have hall : ∀ x ∈ rs.filter p, releaseKey x = k := by
    intro x hx
    have := (List.mem_filter.mp hx).2
    simpa [hp] using this
  have hpw : (rs.filter p).Pairwise (fun a b => releaseLe a b = true) := by
    apply List.pairwise_of_forall_mem_list
    intro a ha b hb
    have hka := hall a ha
    have hkb := hall b hb
    unfold releaseLe
    rw [hka, hkb]
    exact keyLe_refl k
  have hsub : List.Sublist (rs.filter p) (sortReleases rs) :=
    List.sublist_mergeSort releaseLe_trans releaseLe_total hpw (List.filter_sublist rs)
  have hfix : (rs.filter p).filter p = rs.filter p :=
    List.filter_eq_self.mpr (fun a ha => (List.mem_filter.mp ha).2)
  have hsub2 : List.Sublist (rs.filter p) ((sortReleases rs).filter p) := by
    have := hsub.filter p
    rwa [hfix] at this
  have hlen : ((sortReleases rs).filter p).length = (rs.filter p).length :=
    ((sortReleases_perm rs).filter p).length_eq
  exact (hsub2.eq_of_length hlen.symm).symm

end MusicApp

namespace MusicApp

lemma resolveYears_reset (cur : Int) (ss es : String) (err : Option String)
    (h : (if ss.isEmpty then some (1990 : Int) else pyInt ss) = none ∨
         (if es.isEmpty then some cur else pyInt es) = none) :
    resolveYears cur ss es err =
      (1990, cur, some (appendErr err "Start/end year must be numbers.")) := by
  unfold resolveYears
  rcases h with h | h
  · rw [h]
  · rw [h]
    cases (if ss.isEmpty then some (1990 : Int) else pyInt ss) <;> rfl

lemma resolveYears_err (cur : Int) (ss es : String) (msg : String) :
    (resolveYears cur ss es (some msg)).2.2 = some msg ∨
    (resolveYears cur ss es (some msg)).2.2 =
      some (msg ++ " | " ++ "Start/end year must be numbers.") := by
  unfold resolveYears
  cases hs : (if ss.isEmpty then some (1990 : Int) else pyInt ss) with
  | none => right; rfl
  | some s0 =>
      cases he : (if es.isEmpty then some cur else pyInt es) with
      | none => right; rfl
      | some e0 =>
          left
          by_cases hlt : e0 < s0
          · simp [hlt]
          · simp [hlt]

/-- C8: for every pair of numerically parsed year inputs with
`end_year < start_year`, the resolver swaps them and adds no error or
warning. -/
theorem c8_swap_years (cur : Int) (ss es : String) (err : Option String) (s0 e0 : Int)
    (hs : (if ss.isEmpty then some (1990 : Int) else pyInt ss) = some s0)
    (he : (if es.isEmpty then some cur else pyInt es) = some e0)
    (hlt : e0 < s0) :
    resolveYears cur ss es err = (e0, s0, err) := by
  unfold resolveYears
  rw [hs, he]
  simp [hlt]

/-- Witness for C8 at the concrete inputs start "2005", end "1999". -/
theorem c8_swap_years_witness :
    resolveYears 2025 "2005" "1999" none = (1999, 2005, none) := by
  exact c8_swap_years 2025 "2005" "1999" none 2005 1999 (by rfl) (by rfl) (by decide)

/-- C9: for every date input that parses under the strict format, the
month-day key is the substring after the first five characters and the
pretty date is the full month name followed by the zero-padded day. -/
theorem c9_date_derivation (s : String) (y m d : Nat)
    (h : parseDate s = some (y, m, d)) :
    resolveDate s = (some (s.drop 5), monthName m ++ " " ++ pad2 d, none) := by
  unfold resolveDate
  rw [h]

/-- Witness for C9 at the spec's example input `2019-11-22`. -/
theorem c9_date_derivation_witness :
    parseDate "2019-11-22" = some (2019, 11, 22)
  ∧ resolveDate "2019-11-22" = (some "11-22", "November 22", none) := by
  refine ⟨by rfl, ?_⟩
  exact (c9_date_derivation "2019-11-22" 2019 11 22 (by rfl)).trans (by rfl)

/-- C4: for every submission whose date fails the strict parse, the invalid
date error is reported, results stay `None`, and the handler's output does
not depend on the fetch oracle (no external call influences it), regardless
of the year fields. -/
theorem c4_invalid_date_skips_fetch (cur : Int) (fetch : Int → String → FetchResult)
    (dStr sStr eStr : String)
    (hparse : parseDate (pyStrip dStr) = none) :
    (postIndex cur fetch dStr sStr eStr).results = none
  ∧ ((postIndex cur fetch dStr sStr eStr).error =
       some "Invalid date. Please use the date picker."
     ∨ (postIndex cur fetch dStr sStr eStr).error =
       some ("Invalid date. Please use the date picker." ++ " | " ++
             "Start/end year must be numbers."))
  ∧ ∀ g : Int → String → FetchResult,
      postIndex cur g dStr sStr eStr = postIndex cur fetch dStr sStr eStr := by
  have hd : resolveDate (pyStrip dStr) =
      (none, "", some "Invalid date. Please use the date picker.") := by
    unfold resolveDate
    rw [hparse]
  rcases hry : resolveYears cur (pyStrip sStr) (pyStrip eStr)
      (some "Invalid date. Please use the date picker.") with ⟨s', e', err2⟩
  have herr := resolveYears_err cur (pyStrip sStr) (pyStrip eStr)
      "Invalid date. Please use the date picker."
  rw [hry] at herr
  have hpost := postIndex_noDate cur fetch dStr sStr eStr "" _ err2 s' e' hd hry
  refine ⟨?_, ?_, ?_⟩
  · rw [hpost]
  · rcases herr with h | h
    · left; rw [hpost]; simpa using h
    · right; rw [hpost]; simpa using h
  · intro g
    rw [hpost, postIndex_noDate cur g dStr sStr eStr "" _ err2 s' e' hd hry]

/-- Witness for C4 at the input date "not-a-date" with valid year fields. -/
theorem c4_invalid_date_skips_fetch_witness :
    (postIndex 2025 fetchBoom "not-a-date" "2018" "2020").results = none
  ∧ ((postIndex 2025 fetchBoom "not-a-date" "2018" "2020").error =
       some "Invalid date. Please use the date picker."
     ∨ (postIndex 2025 fetchBoom "not-a-date" "2018" "2020").error =
       some ("Invalid date. Please use the date picker." ++ " | " ++
             "Start/end year must be numbers.")) := by
  have h := c4_invalid_date_skips_fetch 2025 fetchBoom "not-a-date" "2018" "2020" (by rfl)
  exact ⟨h.1, h.2.1⟩

/-- C5: for every POST submission in which a validation error was recorded,
the fetch loop never runs: results stay `None`, the banner is exactly the
validation message (no clamp warning is appended), and the output does not
depend on the fetch oracle. -/
theorem c5_validation_error_suppresses_fetch (cur : Int)
    (fetch : Int → String → FetchResult) (dStr sStr eStr : String)
    (mmDd : Option String) (p : String) (e1 : Option String)
    (msg : String) (s e : Int)
    (hd : resolveDate (pyStrip dStr) = (mmDd, p, e1))
    (hy : resolveYears cur (pyStrip sStr) (pyStrip eStr) e1 = (s, e, some msg)) :
    (postIndex cur fetch dStr sStr eStr).results = none
  ∧ (postIndex cur fetch dStr sStr eStr).error = some msg
  ∧ ∀ g : Int → String → FetchResult,
      postIndex cur g dStr sStr eStr = postIndex cur fetch dStr sStr eStr := by
  cases mmDd with
  | none =>
      have hpost := postIndex_noDate cur fetch dStr sStr eStr p e1 (some msg) s e hd hy
      refine ⟨by rw [hpost], by rw [hpost], ?_⟩
      intro g
      rw [hpost, postIndex_noDate cur g dStr sStr eStr p e1 (some msg) s e hd hy]
  | some md =>
      have hpost := postIndex_noRun cur fetch dStr sStr eStr (some md) p msg e1 s e hd hy
      refine ⟨by rw [hpost], by rw [hpost], ?_⟩
      intro g
      rw [hpost, postIndex_noRun cur g dStr sStr eStr (some md) p msg e1 s e hd hy]

/-- Witness for C5: a valid date with a non-numeric start year; the default
span 1990-2025 exceeds 25 years, and the banner still carries only the year
error, with no clamp warning. -/
theorem c5_validation_error_suppresses_fetch_witness :
    (postIndex 2025 fetchBoom "2019-11-22" "abc" "").results = none
  ∧ (postIndex 2025 fetchBoom "2019-11-22" "abc" "").error =
      some "Start/end year must be numbers." := by
  have h := c5_validation_error_suppresses_fetch 2025 fetchBoom "2019-11-22" "abc" ""
    (some "11-22") "November 22" none "Start/end year must be numbers." 1990 2025
    (by rfl) (by rfl)
  exact ⟨h.1, h.2.1⟩

end MusicApp

namespace MusicApp

/-- C10: blank year fields resolve to 1990 and the current year without
error; a failed integer parse of a non-blank field resets both years to
those defaults and records the error mentioning numbers, and the request
still renders with the default years rather than aborting. -/
theorem c10_year_defaults_and_reset :
    (∀ (cur : Int) (err : Option String), 1990 ≤ cur →
       resolveYears cur "" "" err = (1990, cur, err))
  ∧ (∀ (cur : Int) (es : String) (err : Option String) (e0 : Int),
       (if es.isEmpty then some cur else pyInt es) = some e0 → 1990 ≤ e0 →
       resolveYears cur "" es err = (1990, e0, err))
  ∧ (∀ (cur : Int) (ss : String) (err : Option String) (s0 : Int),
       (if ss.isEmpty then some (1990 : Int) else pyInt ss) = some s0 → s0 ≤ cur →
       resolveYears cur ss "" err = (s0, cur, err))
  ∧ (∀ (cur : Int) (ss es : String) (err : Option String),
       ((if ss.isEmpty then some (1990 : Int) else pyInt ss) = none ∨
        (if es.isEmpty then some cur else pyInt es) = none) →
       resolveYears cur ss es err =
         (1990, cur, some (appendErr err "Start/end year must be numbers.")))
  ∧ (∀ (cur : Int) (fetch : Int → String → FetchResult) (dStr sStr eStr md p : String),
       resolveDate (pyStrip dStr) = (some md, p, none) →
       ((if (pyStrip sStr).isEmpty then some (1990 : Int) else pyInt (pyStrip sStr)) = none ∨
        (if (pyStrip eStr).isEmpty then some cur else pyInt (pyStrip eStr)) = none) →
       postIndex cur fetch dStr sStr eStr =
         { error := some "Start/end year must be numbers.", results := none
           date_value := pyStrip dStr, start_year := 1990, end_year := cur
           pretty_date := p, current_year := cur }) := by
  refine ⟨?_, ?_, ?_, ?_, ?_⟩
  · intro cur err hc
    unfold resolveYears
    simp only [String.isEmpty]
    norm_num
    omega
  · intro cur es err e0 he h0
    unfold resolveYears
    rw [show (if ("" : String).isEmpty then some (1990 : Int) else pyInt "") = some 1990 from rfl, he]
    simp only
    rw [if_neg (by omega)]
  · intro cur ss err s0 hs h0
    unfold resolveYears
    rw [hs, show (if ("" : String).isEmpty then some cur else pyInt "") = some cur from rfl]
    simp only
    rw [if_neg (by omega)]
  · intro cur ss es err h
    exact resolveYears_reset cur ss es err h
  · intro cur fetch dStr sStr eStr md p hd hfail
    have hy := resolveYears_reset cur (pyStrip sStr) (pyStrip eStr) none hfail
    exact postIndex_noRun cur fetch dStr sStr eStr (some md) p
      "Start/end year must be numbers." none 1990 cur hd hy

/-- Witness for C10 at the spec scenario: start blank, end "abc". -/
theorem c10_year_defaults_and_reset_witness :
    resolveYears 2025 "" "abc" none = (1990, 2025, some "Start/end year must be numbers.")
  ∧ postIndex 2025 fetchBoom "2019-11-22" "" "abc" =
      { error := some "Start/end year must be numbers.", results := none
        date_value := "2019-11-22", start_year := 1990, end_year := 2025
        pretty_date := "November 22", current_year := 2025 } := by
  refine ⟨?_, ?_⟩
  · exact (c10_year_defaults_and_reset.2.2.2.1 2025 "" "abc" none (Or.inr (by rfl))).trans (by rfl)
  · exact (c10_year_defaults_and_reset.2.2.2.2 2025 fetchBoom "2019-11-22" "" "abc"
      "11-22" "November 22" (by rfl) (Or.inr (by rfl))).trans (by rfl)

end MusicApp

namespace MusicApp

/-- C1: if the fetch loop runs and the external call fails (HTTP or
transport) at year `y` of the looped range, the handler stops at `y`
(its output does not depend on the oracle at any later year), returns
exactly the records collected from the years before `y`, and reports an
error naming year `y` and the underlying cause. -/
theorem c1_fetch_failure_fail_fast (cur : Int) (fetch : Int → String → FetchResult)
    (dStr sStr eStr md p : String) (s e y : Int) (rels : Int → List RawRelease)
    (hd : resolveDate (pyStrip dStr) = (some md, p, none))
    (hmd : md.isEmpty = false)
    (hy : resolveYears cur (pyStrip sStr) (pyStrip eStr) none = (s, e, none))
    (hsy : s ≤ y) (hye : y ≤ (clampStep cur s e none).1)
    (hok : ∀ y' ∈ yearRange s (y - 1), fetch y' md = FetchResult.ok (rels y'))
    (hfail : (∃ m, fetch y md = FetchResult.httpError m) ∨
             (∃ m, fetch y md = FetchResult.otherError m)) :
    (postIndex cur fetch dStr sStr eStr).results =
      some (sortStep ((yearRange s (y - 1)).flatMap
        (fun y' => (rels y').map (mkRelease y'))))
  ∧ (postIndex cur fetch dStr sStr eStr).error = some (failText y (fetch y md))
  ∧ ∀ g : Int → String → FetchResult,
      (∀ y' ∈ yearRange s y, g y' md = fetch y' md) →
      postIndex cur g dStr sStr eStr = postIndex cur fetch dStr sStr eStr := by
  have hrun := postIndex_run cur fetch dStr sStr eStr md p s e hd hmd hy
  have hcol := collect_fail fetch md rels s (clampStep cur s e none).1 y hsy hye hok hfail
  refine ⟨?_, ?_, ?_⟩
  · rw [hrun]
    simp [hcol]
  · rw [hrun]
    simp [hcol]
  · intro g hg
    have hgy : g y md = fetch y md := hg y (mem_yearRange.mpr ⟨hsy, by omega⟩)
    have hok' : ∀ y' ∈ yearRange s (y - 1), g y' md = FetchResult.ok (rels y') := by
      intro y' hy'
      rcases mem_yearRange.mp hy' with ⟨a, b⟩
      rw [hg y' (mem_yearRange.mpr ⟨a, by omega⟩)]
      exact hok y' hy'
    have hfail' : (∃ m, g y md = FetchResult.httpError m) ∨
        (∃ m, g y md = FetchResult.otherError m) := by
      rw [hgy]
      exact hfail
    have hcol' := collect_fail g md rels s (clampStep cur s e none).1 y hsy hye hok' hfail'
    have hrun' := postIndex_run cur g dStr sStr eStr md p s e hd hmd hy
    rw [hrun, hrun']
    simp [hcol, hcol', hgy]

/-- Witness for C1 at the spec scenario: years 2018 and 2019 succeed with
one record apiece and year 2020 raises an HTTP error. -/
theorem c1_fetch_failure_fail_fast_witness :
    (postIndex 2025 fetchTo2020 "2019-11-22" "2018" "2020").results =
      some (sortStep ((yearRange 2018 2019).flatMap
        (fun y' => (relsTo2020 y').map (mkRelease y'))))
  ∧ (postIndex 2025 fetchTo2020 "2019-11-22" "2018" "2020").error =
      some "HTTP error for year 2020: 503" := by
  have h := c1_fetch_failure_fail_fast 2025 fetchTo2020 "2019-11-22" "2018" "2020"
    "11-22" "November 22" 2018 2020 2020 relsTo2020
    (by rfl) (by rfl) (by rfl) (by decide) (by decide) (by decide)
    (Or.inl ⟨"503", by rfl⟩)
  exact ⟨h.1, h.2.1.trans (by rfl)⟩

end MusicApp

namespace MusicApp

lemma clampStep_clamped (cur s e : Int) (hspan : e - s + 1 > MAX_YEARS_PER_REQUEST) :
    clampStep cur s e none =
      (min (s + MAX_YEARS_PER_REQUEST - 1) cur,
       some (clampWarning (e - s + 1) s (min (s + MAX_YEARS_PER_REQUEST - 1) cur) cur)) := by
  have he2 : (if s + MAX_YEARS_PER_REQUEST - 1 > cur then cur
              else s + MAX_YEARS_PER_REQUEST - 1) =
      min (s + MAX_YEARS_PER_REQUEST - 1) cur := by
    rw [Int.min_def]
    split_ifs <;> omega
  unfold clampStep
  rw [if_pos hspan]
  simp only [appendErr]
  rw [he2]

/-- C2: when the resolved span exceeds the 25-year maximum, the end year is
clamped to `min(start + 25 - 1, current_year)`, the fetch loop still runs
over the clamped range, and (when the loop itself does not fail) the banner
is the clamp warning describing the clamped range. -/
theorem c2_span_clamp (cur : Int) (fetch : Int → String → FetchResult)
    (dStr sStr eStr md p : String) (s e : Int)
    (hd : resolveDate (pyStrip dStr) = (some md, p, none))
    (hmd : md.isEmpty = false)
    (hy : resolveYears cur (pyStrip sStr) (pyStrip eStr) none = (s, e, none))
    (hspan : e - s + 1 > MAX_YEARS_PER_REQUEST) :
    (postIndex cur fetch dStr sStr eStr).end_year =
      min (s + MAX_YEARS_PER_REQUEST - 1) cur
  ∧ (postIndex cur fetch dStr sStr eStr).results =
      some (sortStep
        (collectYears fetch md (yearRange s (min (s + MAX_YEARS_PER_REQUEST - 1) cur))).1)
  ∧ ((collectYears fetch md (yearRange s (min (s + MAX_YEARS_PER_REQUEST - 1) cur))).2 = none →
     (postIndex cur fetch dStr sStr eStr).error =
       some (clampWarning (e - s + 1) s (min (s + MAX_YEARS_PER_REQUEST - 1) cur) cur)) := by
  have hclamp := clampStep_clamped cur s e hspan
  have hrun := postIndex_run cur fetch dStr sStr eStr md p s e hd hmd hy
  rw [hclamp] at hrun
  refine ⟨?_, ?_, ?_⟩
  · rw [hrun]
  · rw [hrun]
  · intro hnone
    rw [hrun]
    simp [hnone]

/-- Witness for C2: range 1990-2030 with current year 2025 clamps to 2014
and yields the clamp warning; the oracle returns empty lists throughout. -/
theorem c2_span_clamp_witness :
    (postIndex 2025 fetchEmpty "2019-11-22" "1990" "2030").end_year = 2014
  ∧ (postIndex 2025 fetchEmpty "2019-11-22" "1990" "2030").results = some []
  ∧ (postIndex 2025 fetchEmpty "2019-11-22" "1990" "2030").error =
      some ("Year range too large (41 years). Showing only 1990–2014. " ++
            "Try smaller chunks like 1990–2010, then 2011–2025.") := by
  have h := c2_span_clamp 2025 fetchEmpty "2019-11-22" "1990" "2030"
    "11-22" "November 22" 1990 2030 (by rfl) (by rfl) (by rfl) (by decide)
  exact ⟨h.1.trans (by decide), h.2.1.trans (by decide),
    (h.2.2 (by decide)).trans (by decide)⟩

end MusicApp

namespace MusicApp

/-- C3 counterexample: with current year 2025, date 2019-11-22 and range
1990-2030, the span triggers the clamp (the clamp warning is recorded by
`clampStep`), and the first fetch then raises an HTTP error; yet the final
banner is exactly the per-year failure message - it is strictly shorter
than the clamp warning alone, so the two messages were not concatenated:
the failure message replaced the warning. -/
theorem c3_error_append_counterexample :
    (postIndex 2025 fetchBoom "2019-11-22" "1990" "2030").error =
      some "HTTP error for year 1990: boom"
  ∧ (postIndex 2025 fetchBoom "2019-11-22" "1990" "2030").error ≠
      some (clampWarning 41 1990 2014 2025 ++ " | " ++ "HTTP error for year 1990: boom")
  ∧ (2030 : Int) - 1990 + 1 > MAX_YEARS_PER_REQUEST
  ∧ clampStep 2025 1990 2030 none = (2014, some (clampWarning 41 1990 2014 2025))
  ∧ ("HTTP error for year 1990: boom").length < (clampWarning 41 1990 2014 2025).length := by
  refine ⟨by decide, by decide, by decide, by decide, by decide⟩

/-- C3 (amended): the two validation error kinds (malformed date,
non-numeric year) are appended into one message with the separator, and the
clamp warning is emitted on the same single channel; but an external-call
failure message replaces the accumulated error text instead of being
appended: whenever the fetch loop fails with message `m`, the final banner
is exactly `m`, whatever clamp warning was recorded before. -/
theorem c3_error_append_amended :
    (∀ (cur : Int) (fetch : Int → String → FetchResult) (dStr sStr eStr : String),
      parseDate (pyStrip dStr) = none →
      ((if (pyStrip sStr).isEmpty then some (1990 : Int) else pyInt (pyStrip sStr)) = none ∨
       (if (pyStrip eStr).isEmpty then some cur else pyInt (pyStrip eStr)) = none) →
      (postIndex cur fetch dStr sStr eStr).error =
        some ("Invalid date. Please use the date picker." ++ " | " ++
              "Start/end year must be numbers."))
  ∧ (∀ (cur : Int) (fetch : Int → String → FetchResult) (dStr sStr eStr md p : String)
      (s e : Int) (m : String),
      resolveDate (pyStrip dStr) = (some md, p, none) →
      md.isEmpty = false →
      resolveYears cur (pyStrip sStr) (pyStrip eStr) none = (s, e, none) →
      (collectYears fetch md (yearRange s (clampStep cur s e none).1)).2 = some m →
      (postIndex cur fetch dStr sStr eStr).error = some m) := by
  constructor
  · intro cur fetch dStr sStr eStr hparse hyfail
    have hd : resolveDate (pyStrip dStr) =
        (none, "", some "Invalid date. Please use the date picker.") := by
      unfold resolveDate
      rw [hparse]
    have hy := resolveYears_reset cur (pyStrip sStr) (pyStrip eStr)
      (some "Invalid date. Please use the date picker.") hyfail
    rw [postIndex_noDate cur fetch dStr sStr eStr "" _ _ 1990 cur hd hy]
    rfl
  · intro cur fetch dStr sStr eStr md p s e m hd hmd hy hcol
    rw [postIndex_run cur fetch dStr sStr eStr md p s e hd hmd hy]
    simp [hcol]

/-- Witness for the amended C3: the two validation errors concatenate on
one input; on another input the clamp warning is recorded and the fetch
failure replaces it. -/
theorem c3_error_append_amended_witness :
    (postIndex 2025 fetchBoom "bad-date" "abc" "2030").error =
      some ("Invalid date. Please use the date picker." ++ " | " ++
            "Start/end year must be numbers.")
  ∧ (postIndex 2025 fetchBoom "2019-11-22" "1990" "2030").error =
      some "HTTP error for year 1990: boom" := by
  refine ⟨?_, ?_⟩
  · exact c3_error_append_amended.1 2025 fetchBoom "bad-date" "abc" "2030"
      (by rfl) (Or.inl (by rfl))
  · exact c3_error_append_amended.2 2025 fetchBoom "2019-11-22" "1990" "2030"
      "11-22" "November 22" 1990 2030 "HTTP error for year 1990: boom"
      (by rfl) (by rfl) (by rfl) (by decide)

end MusicApp

namespace MusicApp

/-- C6: the sort applied to the collected record list is a permutation,
is sorted ascending by the key `(year, artist or empty, title or empty)`
under Python's tuple and code-point string comparison, and is stable: for
every key value, the records carrying that key appear in the output exactly
in their collection order. -/
theorem c6_sort_law (rs : List Release) :
    List.Perm (sortReleases rs) rs
  ∧ List.Pairwise (fun a b => releaseLe a b = true) (sortReleases rs)
  ∧ ∀ k : Int × String × String,
      (sortReleases rs).filter (fun r => decide (releaseKey r = k)) =
        rs.filter (fun r => decide (releaseKey r = k)) :=
  ⟨sortReleases_perm rs, sortReleases_sorted rs, fun k => sortReleases_stable rs k⟩

/-- C7: a record built from a raw entry during loop year `y` carries year
`y` (independently of the entry's own date), copies `title` and `date` as
given, takes the first artist-credit name exactly when the artist-credit
value is a non-empty list, and carries the deep link exactly when a
non-empty identifier is present. -/
theorem c7_record_extraction (y : Int) (r : RawRelease) :
    (mkRelease y r).year = y
  ∧ (mkRelease y r).title = r.title
  ∧ (mkRelease y r).date = r.date
  ∧ (∀ c cs, r.artistCredit = ACField.listVal (c :: cs) → (mkRelease y r).artist = c.name)
  ∧ ((r.artistCredit = ACField.absent ∨ r.artistCredit = ACField.nonList ∨
      r.artistCredit = ACField.listVal []) → (mkRelease y r).artist = none)
  ∧ (∀ s, r.id = some s → s.isEmpty = false → (mkRelease y r).url = some (urlBase ++ s))
  ∧ ((r.id = none ∨ r.id = some "") → (mkRelease y r).url = none) := by
  refine ⟨rfl, rfl, rfl, ?_, ?_, ?_, ?_⟩
  · intro c cs hac
    simp [mkRelease, extractArtist, hac]
  · rintro (hac | hac | hac) <;> simp [mkRelease, extractArtist, hac]
  · intro s hid hne
    simp [mkRelease, buildUrl, hid, hne]
  · rintro (hid | hid) <;> simp [mkRelease, buildUrl, hid, String.isEmpty]

/-- Witness for C7 on a fully populated raw entry: the year is the loop
year 2020 even though the entry's date is from 1997. -/
theorem c7_record_extraction_witness :
    (mkRelease 2020 rawSample).year = 2020
  ∧ (mkRelease 2020 rawSample).title = some "OK Computer"
  ∧ (mkRelease 2020 rawSample).date = some "1997-05-21"
  ∧ (mkRelease 2020 rawSample).artist = some "Radiohead"
  ∧ (mkRelease 2020 rawSample).url = some "https://musicbrainz.org/release/abc123" := by
  have h := c7_record_extraction 2020 rawSample
  exact ⟨h.1, h.2.1, h.2.2.1,
    h.2.2.2.1 { name := some "Radiohead" } [] rfl,
    (h.2.2.2.2.2.1 "abc123" rfl (by rfl)).trans (by rfl)⟩

end MusicApp
